import Mathlib

/-!
# SearchFace frontend — shallow embedding and verification

Shallow embedding of the SearchFace repository's frontend read/write layer,
client error taxonomy, upload validation, session-storage helper, price
formatting, age-verification actions and the stale-artifact cleanup script,
with theorems settling the specification claims about them.

Conventions: JavaScript exceptions are modelled with `Except` (an
`Except.error` is a raised exception, `Except.ok` a normal return); the
outcome of a `fetch` call is an explicit input to each embedded function;
JSON values are an inductive `Json`; machine numbers that the claims touch
are `Nat`/`Rat`.
-/

namespace SearchFace

/-- Outcome of reading the cookie store (`await cookies()` followed by
`cookieStore.get(name)?.value`): the read may itself throw, otherwise the
cookie value is present or absent.  From `src/unnamed/part_020`. -/
def AGE_VERIFICATION_VALUE : String := "confirmed"

/-- `isAgeVerified` from `src/unnamed/part_020` lines 18–35: read the
`age_verified` cookie and compare its value with `AGE_VERIFICATION_VALUE`;
any exception while reading the store is caught and yields `false`. -/
def isAgeVerified (cookieRead : Except String (Option String)) : Bool :=
  match cookieRead with
  | Except.error _ => false
  | Except.ok v => v == some AGE_VERIFICATION_VALUE

/-- A JavaScript control-flow exception of the Next.js runtime: `redirect`
throws `nextRedirect`, every other raised error is `jsError`. -/
inductive Exn where
  | nextRedirect (url : String)
  | jsError (msg : String)
deriving DecidableEq, Repr

/-- The try-block of `declineAgeVerification` (`src/unnamed/part_020`
related action file, lines 75–88 of `src/frontend/vitest.setup.ts`'s
concatenation): `await clearAgeVerification()` — which may throw — then
`redirect("https://www.google.com")`, which always throws the redirect
control exception.  The block never returns normally. -/
def declineBody (clearResult : Except String Unit) : Except Exn Unit :=
  match clearResult with
  | Except.error m => Except.error (Exn.jsError m)
  | Except.ok _ => Except.error (Exn.nextRedirect "https://www.google.com")

/-- `declineAgeVerification`: run the try-block; its catch clause catches
any exception (the clear failure or the redirect itself) and calls
`redirect("https://www.google.com")` again, which throws. -/
def declineAgeVerification (clearResult : Except String Unit) : Except Exn Unit :=
  match declineBody clearResult with
  | Except.ok u => Except.ok u
  | Except.error _ => Except.error (Exn.nextRedirect "https://www.google.com")

/-- JavaScript `Math.round`: round half up, on rationals. -/
def jsRound (x : Rat) : Int := ⌊x + 1 / 2⌋

/-- One entry of a stored search session, as validated by
`searchSessionResultSchema` in
`src/frontend/src/features/search-results/types.ts`. -/
structure SearchSessionResult where
  rank : Int
  person_id : Int
  name : String
  similarity : Rat
  distance : Rat
  image_path : String
deriving DecidableEq, Repr

/-- The UI-facing person entry (`PersonWithRank` in
`src/frontend/src/features/search-results/types.ts`). -/
structure PersonWithRank where
  id : Int
  rank : Int
  name : String
  similarity : Int
  distance : Rat
  image_path : String
deriving DecidableEq, Repr

/-- The per-entry conversion inside `formatSearchResults`
(`src/frontend/src/features/actress-list/containers/ActressListContainer.tsx`
lines 97–105, the canonical top-5 version): the backend-computed similarity
is scaled to a percentage with `Math.round(result.similarity * 100)`. -/
def toPersonWithRank (result : SearchSessionResult) : PersonWithRank :=
  { id := result.person_id
    rank := result.rank
    name := result.name
    similarity := jsRound (result.similarity * 100)
    distance := result.distance
    image_path := result.image_path }

/-- `formatSearchResults` (canonical version, lines 96–106 of the file
above): `results.slice(0, 5).map(...)`. -/
def formatSearchResults (results : List SearchSessionResult) : List PersonWithRank :=
  (results.take 5).map toPersonWithRank

/-- **C1.** `formatSearchResults` returns one entry per input result, in
input order, truncated to the first 5: its length is `min` of the input
length and 5, and the entry at index `i` is exactly the conversion of the
input entry at index `i` for `i < 5`, with nothing beyond index 4. -/
theorem formatSearchResults_top5 (results : List SearchSessionResult) (i : Nat) :
    (formatSearchResults results).length = min results.length 5 ∧
    (formatSearchResults results)[i]? =
      (if i < 5 then results[i]? else none).map toPersonWithRank := by
  constructor
  · simp [formatSearchResults, List.length_take, Nat.min_comm]
  · by_cases h : i < 5
    · simp [formatSearchResults, List.getElem?_take, h]
    · have hlen : ((results.take 5).map toPersonWithRank).length ≤ i := by
        simp only [List.length_map, List.length_take]
        omega
      simp only [formatSearchResults, List.getElem?_eq_none hlen, h, if_false,
        Option.map_none']

/-- Severity classes of the client error taxonomy (`SearchResultErrorType`
in `src/unnamed/part_012`). -/
inductive SearchResultErrorType where
  | error
  | warning
  | info
deriving DecidableEq, Repr

/-- The seven recognized error-kind codes (`errorCodeSchema` enum in the
search action type module). -/
def errorCodes : List String :=
  ["NO_FACE_DETECTED", "MULTIPLE_FACES", "INVALID_IMAGE", "SERVER_ERROR",
   "NETWORK_ERROR", "UNKNOWN_ERROR", "SESSION_NOT_FOUND"]

/-- `isErrorCode` (type guard): `errorCodeSchema.safeParse(code).success`,
i.e. membership in the enum. -/
def isErrorCode (code : String) : Bool :=
  decide (code ∈ errorCodes)

/-- `getErrorMessage` (`src/unnamed/part_012` lines 4–15): look the code up
in the `messages` record.  The TypeScript signature restricts `code` to the
enum, but at runtime `messages[code]` is a plain member access: an
unrecognized code yields `undefined` (here `none`). -/
def getErrorMessage (code : String) : Option String :=
  if code = "NO_FACE_DETECTED" then some "画像から顔が検出できませんでした"
  else if code = "MULTIPLE_FACES" then some "画像には1つの顔のみ含める必要があります"
  else if code = "INVALID_IMAGE" then some "無効な画像形式です"
  else if code = "SERVER_ERROR" then some "サーバーエラーが発生しました"
  else if code = "NETWORK_ERROR" then some "ネットワークエラーが発生しました"
  else if code = "UNKNOWN_ERROR" then some "予期せぬエラーが発生しました"
  else if code = "SESSION_NOT_FOUND" then some "検索結果が見つかりません"
  else none

/-- `getErrorType` (`src/unnamed/part_012` lines 18–32): the `switch` with
its three warning cases, four error cases, and a `default` returning
`"info"`. -/
def getErrorType (code : String) : SearchResultErrorType :=
  if code = "NO_FACE_DETECTED" ∨ code = "MULTIPLE_FACES" ∨ code = "INVALID_IMAGE" then
    SearchResultErrorType.warning
  else if code = "SERVER_ERROR" ∨ code = "NETWORK_ERROR" ∨ code = "UNKNOWN_ERROR" ∨
      code = "SESSION_NOT_FOUND" then
    SearchResultErrorType.error
  else
    SearchResultErrorType.info

/-- **C5, counterexample.** The claim's fallback clause fails: an
unrecognized code does not map to the Unknown kind's message and severity
class — `getErrorMessage` yields no message at all (`undefined`) and
`getErrorType` yields `info`, while `UNKNOWN_ERROR` maps to a message and
severity `error`. -/
theorem errorTaxonomy_fallback_counterexample :
    ¬ (getErrorMessage "TOTALLY_BOGUS_CODE" = getErrorMessage "UNKNOWN_ERROR" ∧
       getErrorType "TOTALLY_BOGUS_CODE" = getErrorType "UNKNOWN_ERROR") := by
  decide

/-- **C5, amended.** Every recognized error kind maps to exactly one
non-empty localized message and exactly one severity class (warning for the
three client-input kinds, error for the rest); an unrecognized or absent
code yields no message (`undefined`) and the severity class `info` — not
the Unknown fallback message/class. -/
theorem errorTaxonomy_amended (s : String) :
    (getErrorMessage s).isSome = isErrorCode s ∧
    getErrorMessage s ≠ some "" ∧
    getErrorType s =
      (if s ∈ ["NO_FACE_DETECTED", "MULTIPLE_FACES", "INVALID_IMAGE"] then
        SearchResultErrorType.warning
      else if isErrorCode s then SearchResultErrorType.error
      else SearchResultErrorType.info) := by
  by_cases h1 : s = "NO_FACE_DETECTED" <;>
    by_cases h2 : s = "MULTIPLE_FACES" <;>
      by_cases h3 : s = "INVALID_IMAGE" <;>
        by_cases h4 : s = "SERVER_ERROR" <;>
          by_cases h5 : s = "NETWORK_ERROR" <;>
            by_cases h6 : s = "UNKNOWN_ERROR" <;>
              by_cases h7 : s = "SESSION_NOT_FOUND" <;>
                simp_all [getErrorMessage, getErrorType, isErrorCode, errorCodes]

/-- The client error-kind codes (`errorCodeSchema` / `SearchResultErrorCode`
in the search action modules), as an enumeration. -/
inductive ErrorCode where
  | NO_FACE_DETECTED
  | MULTIPLE_FACES
  | INVALID_IMAGE
  | SERVER_ERROR
  | NETWORK_ERROR
  | UNKNOWN_ERROR
  | SESSION_NOT_FOUND
deriving DecidableEq, Repr

/-- `errorCodeSchema.parse` on a string: succeeds exactly on the seven
recognized codes. -/
def ErrorCode.fromString : String → Option ErrorCode
  | "NO_FACE_DETECTED" => some ErrorCode.NO_FACE_DETECTED
  | "MULTIPLE_FACES" => some ErrorCode.MULTIPLE_FACES
  | "INVALID_IMAGE" => some ErrorCode.INVALID_IMAGE
  | "SERVER_ERROR" => some ErrorCode.SERVER_ERROR
  | "NETWORK_ERROR" => some ErrorCode.NETWORK_ERROR
  | "UNKNOWN_ERROR" => some ErrorCode.UNKNOWN_ERROR
  | "SESSION_NOT_FOUND" => some ErrorCode.SESSION_NOT_FOUND
  | _ => none

/-- JSON values, as produced by `response.json()` / `JSON.parse`. -/
inductive Json where
  | null
  | bool (b : Bool)
  | num (q : Rat)
  | str (s : String)
  | arr (elems : List Json)
  | obj (fields : List (String × Json))

/-- Key lookup in a JSON object's field list (JavaScript member access on a
parsed object). -/
def lookupField : List (String × Json) → String → Option Json
  | [], _ => none
  | (k, v) :: rest, key => if key = k then some v else lookupField rest key

/-- `value[key]` on a JSON value: a field of an object, absent otherwise. -/
def Json.getField : Json → String → Option Json
  | Json.obj fields, key => lookupField fields key
  | _, _ => none

/-- `z.string()` applied to an optional JSON value. -/
def asStr : Option Json → Option String
  | some (Json.str s) => some s
  | _ => none

/-- `z.number()` applied to an optional JSON value. -/
def asNum : Option Json → Option Rat
  | some (Json.num q) => some q
  | _ => none

/-- `z.array(...)` applied to an optional JSON value: the element list. -/
def asArr : Option Json → Option (List Json)
  | some (Json.arr elems) => some elems
  | _ => none

/-- One search result row (`searchResultSchema`). -/
structure SearchResult where
  name : String
  similarity : Rat
  distance : Rat
  image_path : String
deriving DecidableEq, Repr

/-- The validated success payload of the search endpoint
(`searchSuccessResponseSchema`). -/
structure SearchSuccessResponse where
  results : List SearchResult
  processing_time : Rat
  search_session_id : String
deriving DecidableEq, Repr

/-- `searchResultSchema.parse` on a JSON value: an object with string
`name`, numeric `similarity` and `distance`, string `image_path`. -/
def parseSearchResult (j : Json) : Option SearchResult :=
  match asStr (j.getField "name"), asNum (j.getField "similarity"),
      asNum (j.getField "distance"), asStr (j.getField "image_path") with
  | some n, some sim, some dist, some ip => some ⟨n, sim, dist, ip⟩
  | _, _, _, _ => none

/-- `z.array(searchResultSchema).parse`: every element must conform. -/
def parseResultList : List Json → Option (List SearchResult)
  | [] => some []
  | j :: rest =>
    match parseSearchResult j, parseResultList rest with
    | some r, some rs => some (r :: rs)
    | _, _ => none

/-- `searchSuccessResponseSchema.parse` on a JSON value. -/
def parseSearchSuccess (j : Json) : Option SearchSuccessResponse :=
  match asArr (j.getField "results") with
  | none => none
  | some elems =>
    match parseResultList elems, asNum (j.getField "processing_time"),
        asStr (j.getField "search_session_id") with
    | some rs, some pt, some sid => some ⟨rs, pt, sid⟩
    | _, _, _ => none

/-- The structured error body (`searchResultErrorSchema`): an `error` object
with a recognized `code` and a string `message`. -/
structure SearchResultErrorBody where
  code : ErrorCode
  message : String
deriving DecidableEq, Repr

/-- `searchResultErrorSchema.parse` on a JSON value. -/
def parseSearchResultError (j : Json) : Option SearchResultErrorBody :=
  match j.getField "error" with
  | none => none
  | some e =>
    match asStr (e.getField "code"), asStr (e.getField "message") with
    | some c, some m =>
      match ErrorCode.fromString c with
      | some code => some ⟨code, m⟩
      | none => none
    | _, _ => none

/-- The runtime events a `searchImage` invocation can see: the form data
has no image; `fetch` rejects; or a response arrives with a success flag, a
status, and a body whose JSON parsing (`response.json()`) either throws or
yields a JSON value. -/
inductive SearchFetch where
  | noImage
  | netFail (msg : String)
  | resp (ok : Bool) (status : Nat) (body : Except String Json)

/-- A raised JavaScript error inside `searchImage`: either a
`SearchResultError` carrying a code, or any other error (plain `Error`,
`ZodError`, a rejected `fetch`). -/
inductive JsError where
  | searchResultError (code : ErrorCode)
  | generic (msg : String)

/-- The try-block of `searchImage` (`src/unnamed/part_009` lines 47–75):
require the image, fetch, parse the body JSON, then on a non-success status
`searchResultErrorSchema.parse` the body and throw the typed error built by
`createSearchResultCustomError`, and on success validate the body against
`searchSuccessResponseSchema` and return it.  Schema `.parse` failures
throw a `ZodError` (a generic error). -/
def searchImageBody : SearchFetch → Except JsError SearchSuccessResponse
  | SearchFetch.noImage => Except.error (JsError.generic "画像が選択されていません")
  | SearchFetch.netFail m => Except.error (JsError.generic m)
  | SearchFetch.resp ok _ body =>
    match body with
    | Except.error m => Except.error (JsError.generic m)
    | Except.ok j =>
      if ok = false then
        match parseSearchResultError j with
        | none => Except.error (JsError.generic "ZodError")
        | some eo => Except.error (JsError.searchResultError eo.code)
      else
        match parseSearchSuccess j with
        | none => Except.error (JsError.generic "ZodError")
        | some v => Except.ok v

/-- `searchImage`: the try-block wrapped in its catch clause, which
rethrows a `SearchResultError` as-is and wraps every other error in
`new SearchResultError(SearchResultErrorCode.UNKNOWN_ERROR)`. -/
def searchImage (f : SearchFetch) : Except ErrorCode SearchSuccessResponse :=
  match searchImageBody f with
  | Except.ok v => Except.ok v
  | Except.error (JsError.searchResultError c) => Except.error c
  | Except.error (JsError.generic _) => Except.error ErrorCode.UNKNOWN_ERROR

/-- **C3.** `searchImage` raises a typed error carrying exactly one known
code on every non-success status — the parsed body's code when the error
body conforms, `UNKNOWN_ERROR` when the body is unparsable JSON or fails
the error schema (absent/unrecognized code) — raises `UNKNOWN_ERROR` on a
success status whose body is unparsable or fails the success schema, and
returns the validated response on a conforming success body. -/
theorem searchImage_error_handling (st : Nat) (j : Json) (em : String) :
    searchImage (SearchFetch.resp false st (Except.ok j)) =
      Except.error
        (match parseSearchResultError j with
          | some eo => eo.code
          | none => ErrorCode.UNKNOWN_ERROR) ∧
    searchImage (SearchFetch.resp false st (Except.error em)) =
      Except.error ErrorCode.UNKNOWN_ERROR ∧
    searchImage (SearchFetch.resp true st (Except.ok j)) =
      (match parseSearchSuccess j with
        | some v => Except.ok v
        | none => Except.error ErrorCode.UNKNOWN_ERROR) ∧
    searchImage (SearchFetch.resp true st (Except.error em)) =
      Except.error ErrorCode.UNKNOWN_ERROR ∧
    searchImage SearchFetch.noImage = Except.error ErrorCode.UNKNOWN_ERROR ∧
    searchImage (SearchFetch.netFail em) = Except.error ErrorCode.UNKNOWN_ERROR := by
  refine ⟨?_, rfl, ?_, rfl, rfl, rfl⟩
  · cases h : parseSearchResultError j <;>
      simp [searchImage, searchImageBody, h]
  · cases h : parseSearchSuccess j <;>
      simp [searchImage, searchImageBody, h]

/-- `JSON.stringify` of a typed `SearchResult` row, as the JSON value the
string denotes (`JSON.parse ∘ JSON.stringify` is the identity on these
JSON-safe objects, so stored strings are modelled by their JSON values). -/
def encodeSearchResult (r : SearchResult) : Json :=
  Json.obj [("name", Json.str r.name), ("similarity", Json.num r.similarity),
            ("distance", Json.num r.distance), ("image_path", Json.str r.image_path)]

/-- `JSON.stringify` of a `SearchSuccessResponse` payload, as a JSON value. -/
def encodeSearchSuccess (p : SearchSuccessResponse) : Json :=
  Json.obj [("results", Json.arr (p.results.map encodeSearchResult)),
            ("processing_time", Json.num p.processing_time),
            ("search_session_id", Json.str p.search_session_id)]

lemma parseSearchResult_encode (r : SearchResult) :
    parseSearchResult (encodeSearchResult r) = some r := rfl

lemma parseResultList_encode (rs : List SearchResult) :
    parseResultList (rs.map encodeSearchResult) = some rs := by
  induction rs with
  | nil => rfl
  | cons r rest ih => simp [parseResultList, parseSearchResult_encode, ih]

lemma parseSearchSuccess_encode (p : SearchSuccessResponse) :
    parseSearchSuccess (encodeSearchSuccess p) = some p := by
  simp [parseSearchSuccess, encodeSearchSuccess, Json.getField, lookupField,
    asArr, asNum, asStr, parseResultList_encode]

/-- `saveSearchResults` (`src/unnamed/part_019`): store
`JSON.stringify(data)` under the single `searchResults` key.  The per-tab
session storage is modelled by the optional value at that key. -/
def saveSearchResults (data : SearchSuccessResponse) (_ : Option Json) : Option Json :=
  some (encodeSearchSuccess data)

/-- `getSearchResults` (`src/unnamed/part_019` lines 24–47): absent value →
`null`; otherwise parse and `safeParse` against
`searchSuccessResponseSchema`, throwing on a validation failure; the catch
clause rewraps any thrown error as `Error("検索結果の取得に失敗しました")`. -/
def getSearchResults (store : Option Json) : Except String (Option SearchSuccessResponse) :=
  match store with
  | none => Except.ok none
  | some j =>
    match parseSearchSuccess j with
    | none => Except.error "検索結果の取得に失敗しました"
    | some v => Except.ok (some v)

/-- `clearSearchResults`: remove the stored value. -/
def clearSearchResults (_ : Option Json) : Option Json := none

/-- `getAndClearSearchResults` (`src/unnamed/part_019` lines 62–78): read,
clear when a value was returned, and return it; if the read threw, clear
anyway and rethrow. -/
def getAndClearSearchResults (store : Option Json) :
    Except String (Option SearchSuccessResponse) × Option Json :=
  match getSearchResults store with
  | Except.ok none => (Except.ok none, store)
  | Except.ok (some r) => (Except.ok (some r), clearSearchResults store)
  | Except.error m => (Except.error m, clearSearchResults store)

/-- **C7.** The stored search-result payload is consumed exactly once: after
`saveSearchResults` stores a payload, the first `getAndClearSearchResults`
returns exactly that payload and empties the storage, and a call on the
emptied storage returns the absent value (and leaves it empty). -/
theorem searchResults_read_and_clear (p : SearchSuccessResponse) (prev : Option Json) :
    (getAndClearSearchResults (saveSearchResults p prev)).1 = Except.ok (some p) ∧
    (getAndClearSearchResults (saveSearchResults p prev)).2 = none ∧
    (getAndClearSearchResults none).1 = Except.ok none ∧
    (getAndClearSearchResults none).2 = none := by
  refine ⟨?_, ?_, rfl, rfl⟩ <;>
    simp [getAndClearSearchResults, getSearchResults, saveSearchResults,
      clearSearchResults, parseSearchSuccess_encode]

/-- What a read-access function's `fetch` produced: a rejected promise
(network failure), or a response with its success flag, status, and a body
whose `response.json()` either throws or yields the typed payload (these
functions cast the parsed JSON without schema validation). -/
inductive FetchResult (β : Type) where
  | netFail (msg : String)
  | resp (ok : Bool) (status : Nat) (body : Except String β)

/-- `true` when the modelled call raised to its caller. -/
def raisesToCaller {β : Type} : Except String (Option β) → Bool
  | Except.error _ => true
  | Except.ok _ => false

/-- `true` when the fetch failed in any of the claim's senses: network
failure, non-success status, or a body that fails parsing. -/
def fetchFailed {β : Type} : FetchResult β → Bool
  | FetchResult.netFail _ => true
  | FetchResult.resp _ _ (Except.error _) => true
  | FetchResult.resp ok _ (Except.ok _) => !ok

/-- `getRankingData` (`src/unnamed/part_036` lines 189–241): non-success
status → `null`; a throwing `fetch`/`response.json()` is caught → `null`;
otherwise the body. -/
def getRankingData {β : Type} (r : FetchResult β) : Except String (Option β) :=
  match r with
  | FetchResult.netFail _ => Except.ok none
  | FetchResult.resp ok _ body =>
    if ok = false then Except.ok none
    else
      match body with
      | Except.error _ => Except.ok none
      | Except.ok b => Except.ok (some b)

/-- `getActressList` (`src/frontend/src/features/actress-list/api.ts`
lines 9–49): identical failure handling — every failure becomes `null`. -/
def getActressList {β : Type} (r : FetchResult β) : Except String (Option β) :=
  match r with
  | FetchResult.netFail _ => Except.ok none
  | FetchResult.resp ok _ body =>
    if ok = false then Except.ok none
    else
      match body with
      | Except.error _ => Except.ok none
      | Except.ok b => Except.ok (some b)

/-- `getSearchSessionResults` (`src/unnamed/part_041` lines 11–42): same
shape — every failure becomes `null`. -/
def getSearchSessionResults {β : Type} (r : FetchResult β) : Except String (Option β) :=
  match r with
  | FetchResult.netFail _ => Except.ok none
  | FetchResult.resp ok _ body =>
    if ok = false then Except.ok none
    else
      match body with
      | Except.error _ => Except.ok none
      | Except.ok b => Except.ok (some b)

/-- `getProductsByPersonId` (`src/unnamed/part_025` lines 23–71): on a
non-success status the 404 and 400 cases are logged separately but every
branch returns `null`; a caught exception also yields `null`. -/
def getProductsByPersonId {β : Type} (_personId _limit : Nat) (r : FetchResult β) :
    Except String (Option β) :=
  match r with
  | FetchResult.netFail _ => Except.ok none
  | FetchResult.resp ok st body =>
    if ok = false then
      if st = 404 then Except.ok none
      else if st = 400 then Except.ok none
      else Except.ok none
    else
      match body with
      | Except.error _ => Except.ok none
      | Except.ok b => Except.ok (some b)

/-- `getActressDetail` (`src/unnamed/part_027` lines 338–366): on a
non-success status it throws (`404` → a not-found `Error`, otherwise an
API-error `Error`); its catch clause logs and rethrows, so a rejected
`fetch` or a throwing `response.json()` also propagates. -/
def getActressDetail {β : Type} (personId : Nat) (r : FetchResult β) :
    Except String (Option β) :=
  match r with
  | FetchResult.netFail m => Except.error m
  | FetchResult.resp ok st body =>
    if ok = false then
      if st = 404 then Except.error ("女優ID " ++ toString personId ++ " が見つかりません")
      else Except.error ("API エラー: " ++ toString st)
    else
      match body with
      | Except.error m => Except.error m
      | Except.ok b => Except.ok (some b)

/-- **C2, counterexample.** The person-detail read function raises: on a
non-success HTTP 500 response `getActressDetail` propagates an exception to
its caller instead of returning the absent value, refuting the claim that
every read-access function never raises. -/
theorem readAccess_raises_counterexample :
    raisesToCaller (getActressDetail (β := Unit) 1
        (FetchResult.resp false 500 (Except.ok ()))) = true ∧
    getActressDetail (β := Unit) 1 (FetchResult.resp false 500 (Except.ok ())) =
      Except.error "API エラー: 500" := by
  exact ⟨rfl, rfl⟩

/-- **C2, amended.** The ranking, person-list, products and session-results
read functions return the absent value (`null`) on any failure — network
failure, non-success status, or a throwing body parse — and never raise;
the person-detail function `getActressDetail` is the exception: it raises
on every failure and never returns an absent value, its callers catching
the exception. -/
theorem readAccess_error_policy {β : Type} (personId limit : Nat) (r : FetchResult β) :
    (fetchFailed r = true →
      getRankingData r = Except.ok none ∧
      getActressList r = Except.ok none ∧
      getSearchSessionResults r = Except.ok none ∧
      getProductsByPersonId personId limit r = Except.ok none) ∧
    raisesToCaller (getRankingData r) = false ∧
    raisesToCaller (getActressList r) = false ∧
    raisesToCaller (getSearchSessionResults r) = false ∧
    raisesToCaller (getProductsByPersonId personId limit r) = false ∧
    raisesToCaller (getActressDetail personId r) = fetchFailed r ∧
    getActressDetail personId r ≠ Except.ok none := by
  cases r with
  | netFail m =>
    simp [getRankingData, getActressList, getSearchSessionResults,
      getProductsByPersonId, getActressDetail, raisesToCaller, fetchFailed]
  | resp ok st body =>
    by_cases h : st = 404 <;>
      cases body <;>
        cases ok <;>
          simp [getRankingData, getActressList, getSearchSessionResults,
            getProductsByPersonId, getActressDetail, raisesToCaller, fetchFailed, h]

/-- A file offered to the upload widget: its byte size and declared MIME
type. -/
structure UploadFile where
  size : Nat
  type : String
deriving DecidableEq, Repr

/-- The widget state touched by `validateAndSetFile`: the selected image
and its preview URL. -/
structure UploadState where
  selectedImage : Option UploadFile
  previewUrl : Option String
deriving DecidableEq, Repr

/-- `validateAndSetFile`
(`src/frontend/src/features/image-upload/ImageUploadZone.tsx` lines 25–48):
reject a file over `500 * 1024` bytes, then a file whose type does not
start with `"image/"`; otherwise store it as the selected image and set the
preview URL to `URL.createObjectURL(file)` (passed in as the browser
primitive).  Returns the boolean result alongside the updated state. -/
def validateAndSetFile (createObjectURL : UploadFile → String) (file : UploadFile)
    (st : UploadState) : Bool × UploadState :=
  let maxSizeKB := 500
  let maxSizeBytes := maxSizeKB * 1024
  if file.size > maxSizeBytes then (false, st)
  else if file.type.startsWith "image/" = false then (false, st)
  else (true, { selectedImage := some file, previewUrl := some (createObjectURL file) })

/-- **C4.** Pre-network validation of the upload widget: a file is accepted
exactly when its size is at most `500 * 1024` bytes and its declared MIME
type starts with `"image/"`; an accepted file is stored as the selected
image with a preview URL produced for it, and a rejected file leaves the
state untouched. -/
theorem validateAndSetFile_spec (createObjectURL : UploadFile → String)
    (file : UploadFile) (st : UploadState) :
    (validateAndSetFile createObjectURL file st).1 =
      (decide (file.size ≤ 500 * 1024) && file.type.startsWith "image/") ∧
    (validateAndSetFile createObjectURL file st).2 =
      (if (validateAndSetFile createObjectURL file st).1 then
        { selectedImage := some file, previewUrl := some (createObjectURL file) }
      else st) := by
  by_cases h1 : 500 * 1024 < file.size
  · have hd : decide (file.size ≤ 500 * 1024) = false := by
      simp only [decide_eq_false_iff_not]
      omega
    simp [validateAndSetFile, h1, hd]
  · have hd : decide (file.size ≤ 500 * 1024) = true := by
      simp only [decide_eq_true_eq]
      omega
    by_cases h2 : file.type.startsWith "image/" = false
    · simp [validateAndSetFile, h1, h2, hd]
    · have h2t : file.type.startsWith "image/" = true := by
        cases hb : file.type.startsWith "image/" <;> simp_all
      simp [validateAndSetFile, h1, h2t, hd]

/-- One delivery tier of a product (`DmmDelivery` in
`src/unnamed/part_026`). -/
structure DmmDelivery where
  type : String
  price : String
deriving DecidableEq, Repr

/-- The price shape of a product (`DmmPrices` in `src/unnamed/part_026`):
every field optional. -/
structure DmmPrices where
  price : Option String
  list_price : Option String
  deliveries : Option (List DmmDelivery)
deriving DecidableEq, Repr

/-- JavaScript truthiness of an optional string field: `undefined` and the
empty string are falsy. -/
def jsTruthyStr : Option String → Bool
  | none => false
  | some s => !(s == "")

/-- `formatPrice` (`src/unnamed/part_018` lines 17–26):
`if (prices.price)` — a truthiness test — then the flat price; else
`if (prices.deliveries && prices.deliveries.length > 0)` the first delivery
price; else the placeholder. -/
def formatPrice (prices : DmmPrices) : String :=
  if jsTruthyStr prices.price then "¥" ++ prices.price.getD ""
  else
    match prices.deliveries with
    | some (d :: _) => "¥" ++ d.price
    | _ => "価格未設定"

/-- The claim's reading of the display-price rule, following the spec's
words: the flat price whenever one is *present*, else the first delivery
price, else the placeholder. -/
def formatPriceSpec (prices : DmmPrices) : String :=
  match prices.price with
  | some p => "¥" ++ p
  | none =>
    match prices.deliveries with
    | some (d :: _) => "¥" ++ d.price
    | _ => "価格未設定"

/-- **C8, counterexample.** A present but empty flat price is falsy in
JavaScript, so `formatPrice` falls through to the delivery price where the
claim, read literally, demands the (empty) flat price. -/
theorem formatPrice_truthiness_counterexample :
    formatPrice ⟨some "", none, some [⟨"stream", "300"⟩]⟩ = "¥300" ∧
    formatPriceSpec ⟨some "", none, some [⟨"stream", "300"⟩]⟩ = "¥" ∧
    formatPrice ⟨some "", none, some [⟨"stream", "300"⟩]⟩ ≠
      formatPriceSpec ⟨some "", none, some [⟨"stream", "300"⟩]⟩ := by
  decide

/-- **C8, amended.** The displayed price string is the flat price when one
is present *and non-empty*; otherwise the price of the first entry of the
deliveries array when that array is present and non-empty; otherwise the
"price not set" placeholder. -/
theorem formatPrice_amended (pr : DmmPrices) :
    (∀ p, pr.price = some p → p ≠ "" → formatPrice pr = "¥" ++ p) ∧
    ((pr.price = none ∨ pr.price = some "") →
      ∀ d rest, pr.deliveries = some (d :: rest) → formatPrice pr = "¥" ++ d.price) ∧
    ((pr.price = none ∨ pr.price = some "") →
      (pr.deliveries = none ∨ pr.deliveries = some []) →
      formatPrice pr = "価格未設定") := by
  refine ⟨?_, ?_, ?_⟩
  · intro p hp hne
    simp [formatPrice, jsTruthyStr, hp, hne]
  · rintro (hp | hp) d rest hd <;> simp [formatPrice, jsTruthyStr, hp, hd]
  · rintro (hp | hp) (hd | hd) <;> simp [formatPrice, jsTruthyStr, hp, hd]

/-- A regular file in the acquisition output tree (`data/images/dmm`):
its directory components below that root, its file name and byte size. -/
structure FsFile where
  dirs : List String
  name : String
  size : Nat
deriving DecidableEq, Repr

/-- The selection predicate of the cleanup script (`src/unnamed/part_002`):
`find "$DMM_DIR" -path "*/products/*" -name "product-*.jpg"
-size "-${MAX_SIZE}" -type f` with `MAX_SIZE` in KiB units (default `5k`).
A path matches `*/products/*` exactly when some directory component is
`products`; the glob `product-*.jpg` means the name starts with
`product-`, ends with `.jpg` and is long enough for both; find's
`-size -Nk` rounds the size up to 1 KiB blocks and requires strictly fewer
than `N` of them. -/
def cleanupMatch (sizeKB : Nat) (f : FsFile) : Bool :=
  f.dirs.contains "products" && f.name.startsWith "product-" &&
    f.name.endsWith ".jpg" && decide (12 ≤ f.name.length) &&
    decide ((f.size + 1023) / 1024 < sizeKB)

/-- Dry-run mode (`dry_run`, lines 157–208): report the matching files and
delete nothing.  First component: the reported files; second: the
filesystem afterwards. -/
def dryRunMode (sizeKB : Nat) (fs : List FsFile) : List FsFile × List FsFile :=
  (fs.filter (cleanupMatch sizeKB), fs)

/-- Force mode (`force_delete`, lines 211–268): delete every matching file
without confirmation (`rm` modelled as succeeding), touching nothing
else. -/
def forceMode (sizeKB : Nat) (fs : List FsFile) : List FsFile × List FsFile :=
  (fs.filter (cleanupMatch sizeKB), fs.filter (fun f => !cleanupMatch sizeKB f))

/-- Interactive mode (`main`, lines 37–154): list the matching files, ask
for confirmation, and delete them only on `y`/`Y`. -/
def interactiveMode (sizeKB : Nat) (confirm : Bool) (fs : List FsFile) :
    List FsFile × List FsFile :=
  if confirm then forceMode sizeKB fs
  else (fs.filter (cleanupMatch sizeKB), fs)

/-- **C9.** In every mode a file is deleted only if it lies under a
`products` directory, its name matches `product-*.jpg`, and its size is at
or below the configured threshold (`sizeKB * 1024` bytes, 5 KB by
default); files not matching the script's predicate are never touched in
any mode; and a dry run immediately after a force run reports zero
remaining matches. -/
theorem cleanup_frame_and_exhaustive (sizeKB : Nat) (confirm : Bool)
    (fs : List FsFile) (f : FsFile) :
    (f ∈ fs ∧ f ∉ (forceMode sizeKB fs).2 →
      cleanupMatch sizeKB f = true ∧ f.dirs.contains "products" = true ∧
      f.name.startsWith "product-" = true ∧ f.name.endsWith ".jpg" = true ∧
      f.size ≤ sizeKB * 1024) ∧
    (f ∈ fs ∧ f ∉ (interactiveMode sizeKB confirm fs).2 →
      cleanupMatch sizeKB f = true) ∧
    (cleanupMatch sizeKB f = false →
      ((f ∈ (forceMode sizeKB fs).2) ↔ f ∈ fs) ∧
      ((f ∈ (interactiveMode sizeKB confirm fs).2) ↔ f ∈ fs) ∧
      ((f ∈ (dryRunMode sizeKB fs).2) ↔ f ∈ fs)) ∧
    (dryRunMode sizeKB (forceMode sizeKB fs).2).1 = [] := by
  have hmem : ∀ g : FsFile,
      g ∈ (forceMode sizeKB fs).2 ↔ g ∈ fs ∧ cleanupMatch sizeKB g = false := by
    intro g
    simp [forceMode, List.mem_filter]
  refine ⟨?_, ?_, ?_, ?_⟩
  · rintro ⟨hin, hout⟩
    have hmatch : cleanupMatch sizeKB f = true := by
      rcases hb : cleanupMatch sizeKB f with _ | _
      · exact absurd ((hmem f).mpr ⟨hin, hb⟩) hout
      · rfl
    have hparts := hmatch
    simp only [cleanupMatch, Bool.and_eq_true, decide_eq_true_eq] at hparts
    obtain ⟨⟨⟨⟨hprod, hstart⟩, hend⟩, _⟩, hsize⟩ := hparts
    have hsz : f.size + 1023 < sizeKB * 1024 :=
      (Nat.div_lt_iff_lt_mul (by norm_num)).mp hsize
    exact ⟨hmatch, hprod, hstart, hend, by omega⟩
  · rintro ⟨hin, hout⟩
    rcases hb : cleanupMatch sizeKB f with _ | _
    · exfalso
      rcases hc : confirm with _ | _ <;>
        simp [interactiveMode, hc] at hout
      · exact hout hin
      · exact hout ((hmem f).mpr ⟨hin, hb⟩)
    · rfl
  · intro hfalse
    refine ⟨(hmem f).trans (by simp [hfalse]), ?_, by simp [dryRunMode]⟩
    rcases hc : confirm with _ | _
    · simp [interactiveMode, hc]
    · simpa [interactiveMode, hc] using (hmem f).trans (by simp [hfalse])
  · simp only [dryRunMode, forceMode, List.filter_filter]
    apply List.filter_eq_nil_iff.mpr
    intro a _
    rcases hb : cleanupMatch sizeKB a with _ | _ <;> simp [hb]

/-- **C10.** `isAgeVerified` is total and fails closed: it returns `true`
exactly when the cookie store read succeeded and the cookie is present with
value `"confirmed"`; in particular a throwing cookie store yields `false`,
never a propagated exception. -/
theorem isAgeVerified_fails_closed (cookieRead : Except String (Option String)) :
    isAgeVerified cookieRead = true ↔ cookieRead = Except.ok (some "confirmed") := by
  cases cookieRead with
  | error m => simp [isAgeVerified]
  | ok v =>
    cases v with
    | none => simp [isAgeVerified, AGE_VERIFICATION_VALUE]
    | some s =>
      simp [isAgeVerified, AGE_VERIFICATION_VALUE]

/-- **C6.** `declineAgeVerification` ends in the redirect to
`https://www.google.com` on every execution path — also when clearing the
consent cookie throws — and never returns normally. -/
theorem declineAgeVerification_always_redirects (clearResult : Except String Unit) :
    declineAgeVerification clearResult = Except.error (Exn.nextRedirect "https://www.google.com") := by
  cases clearResult with
  | error m => rfl
  | ok u => rfl

end SearchFace
